import Mathlib

/-!
Shallow embedding of `Framework/Source/Effects/Bloom/Bloom.cpp` (Falcor).

The Bloom class orchestrates four GPU stages (downsample blit, high-pass
filter, Gaussian blur, additive full-screen blit) over engine-provided
collaborators (GaussianBlur, PassFilter, FullScreenPass, BlendState,
RenderContext, Texture, Fbo).  Only `Bloom.cpp` is in the repository
snapshot, so the collaborators are modelled as the plain parameter records
the spec describes; every control-flow and arithmetic decision made in
`Bloom.cpp` itself is embedded faithfully.

32-bit float values (`threshold`, `sigma`, the constants `0.0f`, `0.001f`,
`vec2(0.0f)`, `vec2(1.0f)`) are modelled as rationals: `Bloom.cpp` performs
no arithmetic on them, it only stores and forwards them, so any faithful
carrier works.  The one float computation in the file,
`(uint32_t)(256.0f * ((float)w / (float)h))`, is abstracted as an explicit
natural-number argument `asp` (an aspect-correction width); theorems
quantify over it, and concrete instances use inputs on which the float
computation is exact.
-/

namespace Falcor

/-- Carrier for C++ `float` values stored (never computed on) by Bloom. -/
abbrev F32 := Rat

/-- A 2D texture as Bloom observes it: `getWidth`, `getHeight`, `getFormat`.
Formats are opaque, modelled by a natural-number code. -/
structure Texture where
  width : Nat
  height : Nat
  format : Nat
deriving DecidableEq, Repr

/-- A frame buffer object as Bloom uses it: `getColorTexture(0)`. -/
structure Fbo where
  colorTexture0 : Texture
deriving DecidableEq, Repr

/-- Modelled from the spec: blend operations of the engine's `BlendState`
API (not under src/); Bloom only ever selects `Add`. -/
inductive BlendOp where
  | Add
  | Subtract
  | ReverseSubtract
deriving DecidableEq, Repr

/-- Modelled from the spec: blend factors of the engine's `BlendState` API
(not under src/). -/
inductive BlendFunc where
  | Zero
  | One
  | SrcColor
  | OneMinusSrcColor
  | SrcAlpha
  | OneMinusSrcAlpha
  | DstColor
  | OneMinusDstColor
  | DstAlpha
  | OneMinusDstAlpha
deriving DecidableEq, Repr

/-- Per-render-target blend description. -/
structure RtBlendDesc where
  blendEnabled : Bool
  rgbBlendOp : BlendOp
  alphaBlendOp : BlendOp
  srcRgbFunc : BlendFunc
  dstRgbFunc : BlendFunc
  srcAlphaFunc : BlendFunc
  dstAlphaFunc : BlendFunc
deriving DecidableEq, Repr

/-- Modelled from the spec: the engine's default per-target blend
description (blending disabled, `Add` with `One`/`Zero` factors). -/
def defaultRtBlendDesc : RtBlendDesc :=
  ⟨false, .Add, .Add, .One, .Zero, .One, .Zero⟩

/-- `BlendState::Desc`: one blend description per render target. -/
structure BlendDesc where
  rt : List RtBlendDesc
deriving DecidableEq, Repr

/-- Modelled from the spec: a fresh `BlendState::Desc` with all eight
render targets at the engine defaults. -/
def BlendDesc.mkDefault : BlendDesc :=
  ⟨List.replicate 8 defaultRtBlendDesc⟩

/-- Modelled from the spec: `BlendState::Desc::setRtBlend(rtIndex, enable)`
enables or disables blending on one render target. -/
def BlendDesc.setRtBlend (d : BlendDesc) (rtIndex : Nat) (enable : Bool) : BlendDesc :=
  ⟨d.rt.set rtIndex { d.rt.getD rtIndex defaultRtBlendDesc with blendEnabled := enable }⟩

/-- Modelled from the spec: `BlendState::Desc::setRtParams(rtIndex, rgbOp,
alphaOp, srcRgbFunc, dstRgbFunc, srcAlphaFunc, dstAlphaFunc)` sets the
blend equation of one render target. -/
def BlendDesc.setRtParams (d : BlendDesc) (rtIndex : Nat)
    (rgbOp alphaOp : BlendOp) (srcRgb dstRgb srcAlpha dstAlpha : BlendFunc) : BlendDesc :=
  ⟨d.rt.set rtIndex
    { d.rt.getD rtIndex defaultRtBlendDesc with
        rgbBlendOp := rgbOp
        alphaBlendOp := alphaOp
        srcRgbFunc := srcRgb
        dstRgbFunc := dstRgb
        srcAlphaFunc := srcAlpha
        dstAlphaFunc := dstAlpha }⟩

/-- Modelled from the spec: the filter types of the engine's `PassFilter`
(not under src/); Bloom selects `HighPass`, the brightness-threshold
filter. -/
inductive PassFilterType where
  | HighPass
  | LowPass
deriving DecidableEq, Repr

/-- Modelled from the spec: `PassFilter` is a thresholding pass holding its
type and its brightness cutoff (`getThreshold`/`setThreshold`). -/
structure PassFilter where
  type : PassFilterType
  threshold : F32
deriving DecidableEq, Repr

/-- Modelled from the spec: `PassFilter::create(type, threshold)` stores
exactly the given type and cutoff. -/
def PassFilter.create (t : PassFilterType) (threshold : F32) : PassFilter :=
  ⟨t, threshold⟩

def PassFilter.setThreshold (f : PassFilter) (threshold : F32) : PassFilter :=
  { f with threshold := threshold }

/-- Modelled from the spec: `GaussianBlur` is a separable convolution blur
holding its kernel width and sigma (`getKernelWidth`/`setKernelWidth`,
`getSigma`/`setSigma`). -/
structure GaussianBlur where
  kernelWidth : Nat
  sigma : F32
deriving DecidableEq, Repr

/-- Modelled from the spec: `GaussianBlur::create(kernelSize, sigma)`
stores exactly the given kernel width and sigma. -/
def GaussianBlur.create (kernelSize : Nat) (sigma : F32) : GaussianBlur :=
  ⟨kernelSize, sigma⟩

def GaussianBlur.setKernelWidth (b : GaussianBlur) (k : Nat) : GaussianBlur :=
  { b with kernelWidth := k }

def GaussianBlur.setSigma (b : GaussianBlur) (s : F32) : GaussianBlur :=
  { b with sigma := s }

/-- The slice of `GraphicsVars` Bloom writes: the `SrcRectCB` constants and
the `gTex` shader-resource-view binding (`mSrcTexLoc`). -/
structure GraphicsVars where
  gOffset : F32 × F32
  gScale : F32 × F32
  srcTex : Option Texture
deriving DecidableEq, Repr

/-- The `Bloom` object state: the members of the C++ class that the
reviewed file reads or writes.  `mpFilterResultFbo` is represented by its
color target 0 (`Fbo::create()` starts with none attached).  `allocCount`
instruments the number of `Texture::create2D` calls performed so far. -/
structure Bloom where
  mpBlur : GaussianBlur
  mpFilter : PassFilter
  mpAdditiveBlend : BlendDesc
  mpVars : GraphicsVars
  mpLowResTexture : Option Texture
  mpFilterResultFbo : Option Texture
  allocCount : Nat
deriving DecidableEq, Repr

/-- `Bloom::Bloom(threshold, kernelSize, sigma)` / `Bloom::create`:
builds the blur, the additive blend description, the blit vars and the
high-pass filter.  (The sampler and the shader objects carry no state the
claims observe and are omitted.) -/
def Bloom.create (threshold : F32) (kernelSize : Nat) (sigma : F32) : Bloom :=
  let desc := BlendDesc.mkDefault
  let desc := desc.setRtBlend 0 true
  let desc := desc.setRtParams 0
    BlendOp.Add BlendOp.Add
    BlendFunc.One BlendFunc.One
    BlendFunc.SrcAlpha BlendFunc.OneMinusSrcAlpha
  { mpBlur := GaussianBlur.create kernelSize sigma
    mpFilter := PassFilter.create PassFilterType.HighPass threshold
    mpAdditiveBlend := desc
    mpVars := { gOffset := (0, 0), gScale := (1, 1), srcTex := none }
    mpLowResTexture := none
    mpFilterResultFbo := none
    allocCount := 0 }

/-- `max(pTexture->getWidth() / 4, (uint32_t)(256.0f * aspectRatio))`:
`asp` stands for the float-computed aspect-correction term. -/
def lowResWidth (w asp : Nat) : Nat := max (w / 4) asp

/-- `max(pTexture->getHeight() / 4, 256u)`. -/
def lowResHeight (h : Nat) : Nat := max (h / 4) 256

/-- The texture `Bloom::updateLowResTexture` allocates (or finds already
allocated): computed low-resolution dimensions, input format. -/
def lowResTextureFor (asp : Nat) (t : Texture) : Texture :=
  ⟨lowResWidth t.width asp, lowResHeight t.height, t.format⟩

/-- `Bloom::updateLowResTexture(pTexture)`.  `asp` is the float-computed
`(uint32_t)(256.0f * ((float)width / (float)height))` for `pTexture`,
passed explicitly.  Reallocation (`Texture::create2D`) happens when no
low-resolution texture exists, or when the computed dimensions or the
input format differ from the current texture's. -/
def Bloom.updateLowResTexture (s : Bloom) (asp : Nat) (pTexture : Texture) : Bloom :=
  let lrW := lowResWidth pTexture.width asp
  let lrH := lowResHeight pTexture.height
  let createFbo : Bool :=
    match s.mpLowResTexture with
    | none => true
    | some lr => (lrW != lr.width) || (lrH != lr.height) || (pTexture.format != lr.format)
  if createFbo then
    { s with
        mpLowResTexture := some ⟨lrW, lrH, pTexture.format⟩
        allocCount := s.allocCount + 1 }
  else
    s

/-- GPU operations Bloom submits to the render context, in submission
order: the context blit, the filter pass, the blur pass, and the
full-screen blit pass. -/
inductive GpuOp where
  | blitOp (src dst : Texture)
  | filterExec (filter : PassFilter) (input : Texture) (output : Texture)
  | blurExec (blur : GaussianBlur) (input : Texture) (fboTarget : Option Texture)
  | fullScreenBlit (blend : BlendDesc) (target : Fbo) (srcTex : Option Texture)
deriving DecidableEq, Repr

/-- The render-context state Bloom touches: the graphics state's FBO stack
and the context's graphics-vars stack. -/
structure RenderContext where
  fboStack : List Fbo
  varsStack : List GraphicsVars
deriving DecidableEq, Repr

/-- `Bloom::execute(pRenderContext, pFbo)`.  `aspFn w h` is the
float-computed aspect term for a `w`-by-`h` texture; `filterFn` is the
texture the external `PassFilter::execute` returns for a given input
(modelled from the spec: the filter pass renders its thresholded result
into a texture it owns).  Returns the new Bloom state, the new context
state, and the trace of GPU operations submitted. -/
def Bloom.execute (aspFn : Nat → Nat → Nat) (filterFn : Texture → Texture)
    (s : Bloom) (rc : RenderContext) (pFbo : Fbo) :
    Bloom × RenderContext × List GpuOp :=
  let tex0 := pFbo.colorTexture0
  let s1 := s.updateLowResTexture (aspFn tex0.width tex0.height) tex0
  let lowRes := s1.mpLowResTexture.getD ⟨0, 0, 0⟩
  let e1 := GpuOp.blitOp tex0 lowRes
  let pHighPassResult := filterFn lowRes
  let e2 := GpuOp.filterExec s1.mpFilter lowRes pHighPassResult
  let s2 := { s1 with mpFilterResultFbo := some pHighPassResult }
  let e3 := GpuOp.blurExec s2.mpBlur pHighPassResult s2.mpFilterResultFbo
  let s3 := { s2 with mpVars := { s2.mpVars with srcTex := some pHighPassResult } }
  let rc1 := { rc with fboStack := pFbo :: rc.fboStack }
  let rc2 := { rc1 with varsStack := s3.mpVars :: rc1.varsStack }
  let e4 := GpuOp.fullScreenBlit s3.mpAdditiveBlend (rc2.fboStack.getD 0 pFbo) s3.mpVars.srcTex
  let rc3 := { rc2 with varsStack := rc2.varsStack.tail }
  let rc4 := { rc3 with fboStack := rc3.fboStack.tail }
  (s3, rc4, [e1, e2, e3, e4])

/-- The Gui's answers for one `renderUI` call: whether `beginGroup` opens,
and for each variable control whether it reports a change and the value it
leaves in the variable. -/
structure GuiOracle where
  groupOpen : Bool
  thresholdChanged : Bool
  thresholdNew : F32
  kernelChanged : Bool
  kernelNew : Nat
  sigmaChanged : Bool
  sigmaNew : F32
deriving DecidableEq, Repr

/-- Gui calls `renderUI` makes, with the constant arguments it passes
(minimum for float controls; minimum, maximum and step for int controls). -/
inductive UiOp where
  | beginGroup (label : String)
  | floatVar (label : String) (minVal : F32)
  | intVar (label : String) (minVal maxVal step : Int)
  | endGroup
deriving DecidableEq, Repr

/-- `Bloom::renderUI(pGui, uiGroup)`: when `uiGroup` is null or
`beginGroup` opens, shows the three controls and writes a parameter back
through its setter exactly when its control reports a change; closes the
group when one was opened. -/
def Bloom.renderUI (s : Bloom) (o : GuiOracle) (uiGroup : Option String) :
    Bloom × List UiOp :=
  if uiGroup.isNone || o.groupOpen then
    let openOps := match uiGroup with
      | none => []
      | some g => [UiOp.beginGroup g]
    let s1 := if o.thresholdChanged
      then { s with mpFilter := s.mpFilter.setThreshold o.thresholdNew }
      else s
    let s2 := if o.kernelChanged
      then { s1 with mpBlur := s1.mpBlur.setKernelWidth o.kernelNew }
      else s1
    let s3 := if o.sigmaChanged
      then { s2 with mpBlur := s2.mpBlur.setSigma o.sigmaNew }
      else s2
    let closeOps := match uiGroup with
      | none => []
      | some _ => [UiOp.endGroup]
    (s3, openOps
      ++ [UiOp.floatVar "Threshold" 0,
          UiOp.intVar "Kernel Width" 1 15 2,
          UiOp.floatVar "Sigma" (1 / 1000)]
      ++ closeOps)
  else
    (s, [])

/-! ## Helper lemmas -/

/-- After any `updateLowResTexture` call, the low-resolution texture exists
and is exactly the computed one: either it was just allocated with those
parameters, or the reallocation test certified the existing one matches. -/
theorem updateLowResTexture_some (s : Bloom) (asp : Nat) (t : Texture) :
    (s.updateLowResTexture asp t).mpLowResTexture = some (lowResTextureFor asp t) := by
  unfold Bloom.updateLowResTexture
  cases hlr : s.mpLowResTexture with
  | none => simp [lowResTextureFor]
  | some lr =>
    simp only [hlr]
    split
    · simp [lowResTextureFor]
    · next hfalse =>
      simp only [Bool.or_eq_true, bne_iff_ne, ne_eq, not_or, Bool.not_eq_true,
        Decidable.not_not] at hfalse
      obtain ⟨⟨hw, hh⟩, hf⟩ := hfalse
      rw [hlr, lowResTextureFor]
      cases lr
      simp_all

/-- `updateLowResTexture` only touches `mpLowResTexture` and `allocCount`. -/
theorem updateLowResTexture_mpFilter (s : Bloom) (asp : Nat) (t : Texture) :
    (s.updateLowResTexture asp t).mpFilter = s.mpFilter := by
  unfold Bloom.updateLowResTexture
  dsimp only
  split <;> rfl

theorem updateLowResTexture_mpBlur (s : Bloom) (asp : Nat) (t : Texture) :
    (s.updateLowResTexture asp t).mpBlur = s.mpBlur := by
  unfold Bloom.updateLowResTexture
  dsimp only
  split <;> rfl

theorem updateLowResTexture_mpAdditiveBlend (s : Bloom) (asp : Nat) (t : Texture) :
    (s.updateLowResTexture asp t).mpAdditiveBlend = s.mpAdditiveBlend := by
  unfold Bloom.updateLowResTexture
  dsimp only
  split <;> rfl

theorem updateLowResTexture_mpVars (s : Bloom) (asp : Nat) (t : Texture) :
    (s.updateLowResTexture asp t).mpVars = s.mpVars := by
  unfold Bloom.updateLowResTexture
  dsimp only
  split <;> rfl

/-- When the current low-resolution texture already matches the computed
one, `updateLowResTexture` is the identity. -/
theorem updateLowResTexture_of_match (s : Bloom) (asp : Nat) (t : Texture)
    (h : s.mpLowResTexture = some (lowResTextureFor asp t)) :
    s.updateLowResTexture asp t = s := by
  unfold Bloom.updateLowResTexture
  rw [h]
  simp [lowResTextureFor]

/-- `updateLowResTexture` is the identity exactly when the current
low-resolution texture already equals the computed one. -/
theorem updateLowResTexture_eq_self_iff (s : Bloom) (asp : Nat) (t : Texture) :
    s.updateLowResTexture asp t = s ↔
      s.mpLowResTexture = some (lowResTextureFor asp t) := by
  constructor
  · intro h
    calc s.mpLowResTexture = (s.updateLowResTexture asp t).mpLowResTexture := by rw [h]
      _ = some (lowResTextureFor asp t) := updateLowResTexture_some s asp t
  · exact updateLowResTexture_of_match s asp t

/-! ## Claim theorems -/

/-- Claim C10: after every `updateLowResTexture` call with input `t` and
float aspect term `asp`, the low-resolution texture exists, its width is
`max (t.width / 4) asp`, its height is `max (t.height / 4) 256`, and its
format is the input's format. -/
theorem claim_C10_lowres_invariant (s : Bloom) (asp : Nat) (t : Texture) :
    (s.updateLowResTexture asp t).mpLowResTexture =
      some ⟨max (t.width / 4) asp, max (t.height / 4) 256, t.format⟩ :=
  updateLowResTexture_some s asp t

/-- Claim C8: `updateLowResTexture` is idempotent — a second immediate
call with the same texture (hence the same float aspect term) changes
nothing, in particular performs no reallocation. -/
theorem claim_C8_update_idempotent (s : Bloom) (asp : Nat) (t : Texture) :
    (s.updateLowResTexture asp t).updateLowResTexture asp t =
      s.updateLowResTexture asp t :=
  updateLowResTexture_of_match _ asp t (updateLowResTexture_some s asp t)

/-- Input texture for the C2 counterexample: 1024 by 1024, format code 5. -/
def texC2 : Texture := ⟨1024, 1024, 5⟩

/-- Bloom state for the C2 counterexample: the low-resolution texture was
allocated for a 1024 by 1024 input of format code 3, so it measures 256 by
256 (for a square texture the float aspect term is exactly 256). -/
def bloomC2 : Bloom := (Bloom.create 1 5 1).updateLowResTexture 256 ⟨1024, 1024, 3⟩

/-- Claim C2 counterexample: a low-resolution texture exists whose
dimensions equal the computed target dimensions for `texC2`, yet
`updateLowResTexture` reallocates, because the input format (5) differs
from the texture's format (3).  The claim's "if and only if" predicts no
reallocation here. -/
theorem claim_C2_counterexample :
    bloomC2.mpLowResTexture = some ⟨256, 256, 3⟩ ∧
    lowResWidth texC2.width 256 = 256 ∧
    lowResHeight texC2.height = 256 ∧
    (bloomC2.updateLowResTexture 256 texC2).mpLowResTexture ≠
      bloomC2.mpLowResTexture := by
  refine ⟨rfl, rfl, rfl, ?_⟩
  decide

/-- Claim C2, amended: the state changes (the texture is reallocated) iff
no low-resolution texture exists, or the computed dimensions differ from
the current texture's, or the input format differs from the current
texture's format; in all other cases the state is untouched. -/
theorem claim_C2_realloc_iff (s : Bloom) (asp : Nat) (t : Texture) :
    s.updateLowResTexture asp t ≠ s ↔
      s.mpLowResTexture = none ∨
        ∃ lr, s.mpLowResTexture = some lr ∧
          (lowResWidth t.width asp ≠ lr.width ∨
            lowResHeight t.height ≠ lr.height ∨
            t.format ≠ lr.format) := by
  rw [ne_eq, updateLowResTexture_eq_self_iff]
  cases hlr : s.mpLowResTexture with
  | none => simp
  | some lr =>
    cases lr with
    | mk w h f =>
      constructor
      · intro hne
        refine Or.inr ⟨⟨w, h, f⟩, rfl, ?_⟩
        by_contra hc
        push_neg at hc
        obtain ⟨hw, hh, hf⟩ := hc
        exact hne (by simp [lowResTextureFor, hw, hh, hf])
      · rintro (hnone | ⟨lr', hlr', hdiff⟩)
        · exact absurd hnone (by simp)
        · intro heq
          obtain rfl : lr' = ⟨w, h, f⟩ := (Option.some_inj.mp hlr').symm
          have h2 : lowResTextureFor asp t = ⟨w, h, f⟩ := (Option.some_inj.mp heq).symm
          rcases hdiff with hd | hd | hd
          · exact hd (congrArg Texture.width h2)
          · exact hd (congrArg Texture.height h2)
          · exact hd (@congrArg Texture Nat (lowResTextureFor asp t) ⟨w, h, f⟩
              Texture.format h2)

/-- Witness for the amended C2 at a concrete input: a fresh Bloom has no
low-resolution texture, so the first call reallocates. -/
theorem claim_C2_realloc_iff_witness :
    (Bloom.create 1 5 1).updateLowResTexture 256 texC2 ≠ Bloom.create 1 5 1 :=
  (claim_C2_realloc_iff (Bloom.create 1 5 1) 256 texC2).mpr (Or.inl rfl)

/-- Input texture for the C3 counterexample: 100 by 100 (square, so the
float aspect term `(uint32_t)(256.0f * (100.0f / 100.0f))` is exactly
256). -/
def texC3 : Texture := ⟨100, 100, 0⟩

/-- Claim C3 counterexample: for a 100 by 100 input, the allocated
"low-resolution" texture is 256 by 256 — strictly larger than the input
in both dimensions. -/
theorem claim_C3_counterexample :
    ((Bloom.create 1 5 1).updateLowResTexture 256 texC3).mpLowResTexture =
      some ⟨256, 256, 0⟩ ∧
    ¬ (256 ≤ texC3.width) ∧ ¬ (256 ≤ texC3.height) :=
  ⟨rfl, by decide, by decide⟩

/-- Claim C3, amended: the computed texture is no larger than the input
provided the input height is at least 256 and the float aspect term is at
most the input width (both hold for all large inputs). -/
theorem claim_C3_lowres_le (s : Bloom) (asp : Nat) (t : Texture)
    (hh : 256 ≤ t.height) (hw : asp ≤ t.width) :
    ((s.updateLowResTexture asp t).mpLowResTexture.getD ⟨0, 0, 0⟩).width ≤ t.width ∧
    ((s.updateLowResTexture asp t).mpLowResTexture.getD ⟨0, 0, 0⟩).height ≤ t.height := by
  rw [updateLowResTexture_some]
  simp only [Option.getD_some, lowResTextureFor, lowResWidth, lowResHeight]
  exact ⟨max_le (Nat.div_le_self _ _) hw, max_le (Nat.div_le_self _ _) hh⟩

/-- Witness for the amended C3 at a concrete input (1024 by 1024, exact
float aspect term 256). -/
theorem claim_C3_lowres_le_witness :
    (((Bloom.create 1 5 1).updateLowResTexture 256 ⟨1024, 1024, 0⟩).mpLowResTexture.getD
        ⟨0, 0, 0⟩).width ≤ (Texture.mk 1024 1024 0).width ∧
    (((Bloom.create 1 5 1).updateLowResTexture 256 ⟨1024, 1024, 0⟩).mpLowResTexture.getD
        ⟨0, 0, 0⟩).height ≤ (Texture.mk 1024 1024 0).height :=
  claim_C3_lowres_le (Bloom.create 1 5 1) 256 ⟨1024, 1024, 0⟩ (by decide) (by decide)

/-- Claim C1: `execute` submits exactly four GPU stages, in order: the
downsample blit of the target FBO's color texture 0 into the computed
low-resolution texture, the high-pass filter on that low-resolution
texture, the Gaussian blur on the filter's result texture (rendered into
the FBO whose color target is that same texture), and the full-screen blit
of the blurred result onto the input FBO with the additive blend state. -/
theorem claim_C1_execute_stages (aspFn : Nat → Nat → Nat) (filterFn : Texture → Texture)
    (s : Bloom) (rc : RenderContext) (pFbo : Fbo) :
    (Bloom.execute aspFn filterFn s rc pFbo).2.2 =
      [GpuOp.blitOp pFbo.colorTexture0
          (lowResTextureFor (aspFn pFbo.colorTexture0.width pFbo.colorTexture0.height)
            pFbo.colorTexture0),
        GpuOp.filterExec s.mpFilter
          (lowResTextureFor (aspFn pFbo.colorTexture0.width pFbo.colorTexture0.height)
            pFbo.colorTexture0)
          (filterFn (lowResTextureFor
            (aspFn pFbo.colorTexture0.width pFbo.colorTexture0.height) pFbo.colorTexture0)),
        GpuOp.blurExec s.mpBlur
          (filterFn (lowResTextureFor
            (aspFn pFbo.colorTexture0.width pFbo.colorTexture0.height) pFbo.colorTexture0))
          (some (filterFn (lowResTextureFor
            (aspFn pFbo.colorTexture0.width pFbo.colorTexture0.height) pFbo.colorTexture0))),
        GpuOp.fullScreenBlit s.mpAdditiveBlend pFbo
          (some (filterFn (lowResTextureFor
            (aspFn pFbo.colorTexture0.width pFbo.colorTexture0.height)
            pFbo.colorTexture0)))] := by
  unfold Bloom.execute
  simp only [updateLowResTexture_some, Option.getD_some, updateLowResTexture_mpFilter,
    updateLowResTexture_mpBlur, updateLowResTexture_mpAdditiveBlend, List.getD_cons_zero]

/-- Claim C9: `execute` restores the render context: the FBO pushed onto
the graphics state and the graphics vars pushed onto the context are both
popped, so both stacks end as they started. -/
theorem claim_C9_execute_restores_context (aspFn : Nat → Nat → Nat)
    (filterFn : Texture → Texture) (s : Bloom) (rc : RenderContext) (pFbo : Fbo) :
    (Bloom.execute aspFn filterFn s rc pFbo).2.1.fboStack = rc.fboStack ∧
    (Bloom.execute aspFn filterFn s rc pFbo).2.1.varsStack = rc.varsStack :=
  ⟨rfl, rfl⟩

/-- Claim C4: the blend description built by the constructor has, on
render target 0, blending enabled, RGB blend operation `Add`, and both RGB
blend factors `One` — an additive blend on the color channels. -/
theorem claim_C4_additive_blend (threshold : F32) (kernelSize : Nat) (sigma : F32) :
    ((Bloom.create threshold kernelSize sigma).mpAdditiveBlend.rt.getD 0
        defaultRtBlendDesc).blendEnabled = true ∧
    ((Bloom.create threshold kernelSize sigma).mpAdditiveBlend.rt.getD 0
        defaultRtBlendDesc).rgbBlendOp = BlendOp.Add ∧
    ((Bloom.create threshold kernelSize sigma).mpAdditiveBlend.rt.getD 0
        defaultRtBlendDesc).srcRgbFunc = BlendFunc.One ∧
    ((Bloom.create threshold kernelSize sigma).mpAdditiveBlend.rt.getD 0
        defaultRtBlendDesc).dstRgbFunc = BlendFunc.One :=
  ⟨rfl, rfl, rfl, rfl⟩

/-- Claim C5: the constructed effect's filter stage is the high-pass
filter with exactly the given threshold as its brightness cutoff. -/
theorem claim_C5_filter_is_highpass (threshold : F32) (kernelSize : Nat) (sigma : F32) :
    (Bloom.create threshold kernelSize sigma).mpFilter =
      { type := PassFilterType.HighPass, threshold := threshold } :=
  rfl

/-- Claim C6: the constructed effect's blur stage is a Gaussian blur with
exactly the given kernel width and sigma. -/
theorem claim_C6_blur_params (threshold : F32) (kernelSize : Nat) (sigma : F32) :
    (Bloom.create threshold kernelSize sigma).mpBlur =
      { kernelWidth := kernelSize, sigma := sigma } :=
  rfl

/-- Any int control `renderUI` shows is the kernel-width control, with
minimum 1, maximum 15 and step 2. -/
theorem renderUI_intVar_bounds (s : Bloom) (o : GuiOracle) (uiGroup : Option String)
    (label : String) (mn mx st : Int) :
    UiOp.intVar label mn mx st ∈ (s.renderUI o uiGroup).2 →
      label = "Kernel Width" ∧ mn = 1 ∧ mx = 15 ∧ st = 2 := by
  unfold Bloom.renderUI
  split
  · cases uiGroup <;> intro h <;> simp_all
  · intro h
    simp at h

/-- Claim C7: each effect parameter is written back only when its control
reports a change (an unchanged control leaves its parameter untouched, so
if none report a change all three parameters keep their values), and the
kernel-width control is shown with range 1 to 15 and step 2. -/
theorem claim_C7_renderUI (s : Bloom) (o : GuiOracle) (uiGroup : Option String) :
    (o.thresholdChanged = false →
      (s.renderUI o uiGroup).1.mpFilter.threshold = s.mpFilter.threshold) ∧
    (o.kernelChanged = false →
      (s.renderUI o uiGroup).1.mpBlur.kernelWidth = s.mpBlur.kernelWidth) ∧
    (o.sigmaChanged = false →
      (s.renderUI o uiGroup).1.mpBlur.sigma = s.mpBlur.sigma) ∧
    (∀ label mn mx st, UiOp.intVar label mn mx st ∈ (s.renderUI o uiGroup).2 →
      label = "Kernel Width" ∧ mn = 1 ∧ mx = 15 ∧ st = 2) := by
  obtain ⟨go, tc, tn, kc, kn, sc, sn⟩ := o
  refine ⟨?_, ?_, ?_, fun label mn mx st => renderUI_intVar_bounds s _ uiGroup label mn mx st⟩
  · intro hch
    cases hch
    unfold Bloom.renderUI
    cases go <;> cases kc <;> cases sc <;> cases uiGroup <;>
      simp [PassFilter.setThreshold, GaussianBlur.setKernelWidth, GaussianBlur.setSigma]
  · intro hch
    cases hch
    unfold Bloom.renderUI
    cases go <;> cases tc <;> cases sc <;> cases uiGroup <;>
      simp [PassFilter.setThreshold, GaussianBlur.setKernelWidth, GaussianBlur.setSigma]
  · intro hch
    cases hch
    unfold Bloom.renderUI
    cases go <;> cases tc <;> cases kc <;> cases uiGroup <;>
      simp [PassFilter.setThreshold, GaussianBlur.setKernelWidth, GaussianBlur.setSigma]

/-- Concrete Gui oracle for the C7 witness: the group opens, no control
reports a change. -/
def guiOracleW : GuiOracle := ⟨true, false, 2, false, 9, false, 3⟩

/-- Witness for C7 at a concrete state, oracle and group name. -/
theorem claim_C7_renderUI_witness :
    ((Bloom.create 1 5 1).renderUI guiOracleW (some "Bloom")).1.mpFilter.threshold =
        (Bloom.create 1 5 1).mpFilter.threshold ∧
    ((Bloom.create 1 5 1).renderUI guiOracleW (some "Bloom")).1.mpBlur.kernelWidth =
        (Bloom.create 1 5 1).mpBlur.kernelWidth ∧
    ((Bloom.create 1 5 1).renderUI guiOracleW (some "Bloom")).1.mpBlur.sigma =
        (Bloom.create 1 5 1).mpBlur.sigma ∧
    ("Kernel Width" = "Kernel Width" ∧ (1 : Int) = 1 ∧ (15 : Int) = 15 ∧ (2 : Int) = 2) :=
  let h := claim_C7_renderUI (Bloom.create 1 5 1) guiOracleW (some "Bloom")
  ⟨h.1 rfl, h.2.1 rfl, h.2.2.1 rfl, h.2.2.2 "Kernel Width" 1 15 2 (by decide)⟩

end Falcor
